import Mathlib

/-!
Verification of the synthetic-event generation and bulk-ingestion pipeline of
`src/elk_python/elasticsearch_demo.py` (shallow embedding).

Modelling conventions:
* Python's global random source is injected as a stream `g : Nat → Nat`;
  every primitive draw consumes one stream position.  `random.randint(a, b)`
  at position `i` is modelled as `a + g i % (b - a + 1)` (a value uniform in
  `[a, b]` when the stream value is uniform), `random.choice(xs)` as indexing
  `xs` at `g i % xs.length`, and `random.random()` (the core of
  `random.uniform`) as the rational `(g i % 10000) / 10000 ∈ [0, 1)`.
* `datetime` values are modelled as integer seconds; the offsets the script
  adds (`timedelta(days, hours, minutes)`) are whole minutes, so second
  resolution is exact.  `datetime.now()` is the parameter `now`.
* Python floats are modelled as rationals; `round(x, 2)` is modelled as
  rounding `x * 100` half-to-even (CPython's rounding mode) and dividing back.
* The remote Elasticsearch store is modelled as an association list from index
  names to mappings; the bulk helper of `insert_data` is an injected function
  returning either a `(success, failed)` pair or an exception message.
  `print` calls are modelled by accumulating the printed lines.
-/

namespace ElasticDemo

/-- Entity of the fixed population (`users` list entries, lines 78-84):
fields `id`, `name`, `dept`. -/
structure User where
  id : String
  name : String
  dept : String
deriving DecidableEq

/-- Geographic point (`locations` entries, lines 88-94). -/
structure Location where
  lat : ℚ
  lon : ℚ
deriving DecidableEq

/-- One generated activity record (the dict built at lines 103-119). -/
structure Record where
  timestamp : Int
  user_id : String
  user_name : String
  action : String
  department : String
  status : String
  response_time : ℚ
  ip_address : String
  user_agent : String
  location : Location
  session_duration : Nat
deriving DecidableEq

/-- The fixed population (lines 78-84). -/
def users : List User :=
  [⟨"U001", "John Doe", "engineering"⟩,
   ⟨"U002", "Jane Smith", "marketing"⟩,
   ⟨"U003", "Bob Johnson", "sales"⟩,
   ⟨"U004", "Alice Brown", "engineering"⟩,
   ⟨"U005", "Charlie Wilson", "hr"⟩]

/-- Closed set of actions (line 86). -/
def actions : List String :=
  ["login", "logout", "file_upload", "file_download", "api_call", "database_query"]

/-- Closed set of statuses (line 87). -/
def statuses : List String :=
  ["success", "failed", "timeout"]

/-- Fixed candidate geographic points (lines 88-94). -/
def locations : List Location :=
  [⟨40.7128, -74.0060⟩,
   ⟨37.7749, -122.4194⟩,
   ⟨51.5074, -0.1278⟩,
   ⟨35.6762, 139.6503⟩,
   ⟨19.0760, 72.8777⟩]

/-- Model of `random.randint(a, b)` reading stream position `i`:
an integer in `[a, b]` (inclusive on both ends, as in Python). -/
def randint (g : Nat → Nat) (i a b : Nat) : Nat :=
  a + g i % (b - a + 1)

/-- Model of `random.choice(xs)` reading stream position `i`: an element of
`xs` at a stream-chosen index.  The default `d` is only for totality; every
list the script passes is a non-empty constant. -/
def choice {α : Type} (g : Nat → Nat) (i : Nat) (xs : List α) (d : α) : α :=
  xs.getD (g i % xs.length) d

/-- Model of `random.random()` at stream position `i`: a rational in `[0, 1)`
at resolution 1/10000. -/
def randomFrac (g : Nat → Nat) (i : Nat) : ℚ :=
  ((g i % 10000 : Nat) : ℚ) / 10000

/-- Model of `random.uniform(a, b)` = `a + (b - a) * random.random()`. -/
def uniform (g : Nat → Nat) (i : Nat) (a b : ℚ) : ℚ :=
  a + (b - a) * randomFrac g i

/-- Model of Python's `round(x, 2)`: round `x * 100` to the nearest integer,
ties to even, and divide by 100. -/
def round2 (x : ℚ) : ℚ :=
  let s := x * 100
  let f := Int.floor s
  let r : Int :=
    if s - f < 1/2 then f
    else if s - f > 1/2 then f + 1
    else if f % 2 = 0 then f else f + 1
  (r : ℚ) / 100

/-- One iteration of the generation loop (lines 99-120), reading stream
positions `i0 .. i0 + 10` in the order the Python expression evaluates its
draws: user, location, days, hours, minutes, action, status, response_time,
the two ip octets, session_duration.  `now` is `datetime.now()` in seconds;
`base_time = now - timedelta(days=7)`. -/
def genRecord (g : Nat → Nat) (i0 : Nat) (now : Int) : Record :=
  let user := choice g i0 users ⟨"", "", ""⟩
  let location := choice g (i0 + 1) locations ⟨0, 0⟩
  let d := randint g (i0 + 2) 0 7
  let h := randint g (i0 + 3) 0 23
  let m := randint g (i0 + 4) 0 59
  { timestamp := (now - 7 * 86400) + (d * 86400 + h * 3600 + m * 60 : Nat)
    user_id := user.id
    user_name := user.name
    action := choice g (i0 + 5) actions ""
    department := user.dept
    status := choice g (i0 + 6) statuses ""
    response_time := round2 (uniform g (i0 + 7) (1/10) 5)
    ip_address :=
      "192.168." ++ toString (randint g (i0 + 8) 1 255)
        ++ "." ++ toString (randint g (i0 + 9) 1 255)
    user_agent := "Mozilla/5.0 (Windows NT 10.0; Win64; x64) AppleWebKit/537.36"
    location := location
    session_duration := randint g (i0 + 10) 60 3600 }

/-- `generate_sample_data(num_records)` (lines 74-122).  `num_records` is a
Python `int`, so modelled as `Int`; `range(n)` iterates `max n 0` times.
Record `i` consumes stream positions `11 i .. 11 i + 10`. -/
def generate_sample_data (num_records : Int) (g : Nat → Nat) (now : Int) :
    List Record :=
  (List.range num_records.toNat).map fun i => genRecord g (11 * i) now

/-- Field mapping entry of the index schema: property name and type
(lines 44-66; the `user_name` keyword sub-field and the settings block do
not vary and are captured by the `settings` component below). -/
def mappingProperties : List (String × String) :=
  [("timestamp", "date"),
   ("user_id", "keyword"),
   ("user_name", "text"),
   ("action", "keyword"),
   ("department", "keyword"),
   ("status", "keyword"),
   ("response_time", "float"),
   ("ip_address", "ip"),
   ("user_agent", "text"),
   ("location", "geo_point"),
   ("session_duration", "integer")]

/-- Index schema: field mappings plus `(number_of_shards, number_of_replicas)`
settings (lines 44-66). -/
def mapping : List (String × String) × Nat × Nat :=
  (mappingProperties, 1, 1)

/-- The remote store's index table: association list from index name to the
schema it was created with. -/
def Store : Type := List (String × (List (String × String) × Nat × Nat))

/-- Model of `es.indices.exists(index=index_name)` (line 39). -/
def indicesExists (store : Store) (index_name : String) : Bool :=
  store.any fun p => p.1 = index_name

/-- `create_index_if_not_exists(es, index_name)` (lines 35-71): if the index
exists, print and return `False`; otherwise create it with `mapping` and
return `True`.  Result: (printed lines, return value, store after the call).
-/
def create_index_if_not_exists (store : Store) (index_name : String) :
    List String × Bool × Store :=
  if indicesExists store index_name then
    (["Index '" ++ index_name ++ "' already exists, skipping creation"],
     false, store)
  else
    (["Index '" ++ index_name ++ "' created successfully"],
     true, (index_name, mapping) :: store)

/-- One element of the `actions` list built by `insert_data` (lines 132-138):
the `_index` / `_source` dict wrapping one document.  The document type is a
parameter because Python does not constrain it. -/
structure BulkAction (α : Type) where
  index : String
  source : α
deriving DecidableEq

/-- Outcome of the external `elasticsearch.helpers.bulk` call: either a
`(success count, failed items)` pair or a raised exception (its message). -/
def BulkOutcome : Type := Except String (Nat × List String)

/-- `insert_data(es, index_name, data)` (lines 125-147).  The external bulk
helper is injected as `bulk`.  Returns the printed lines together with the
Python return value, which is always `None` (the function body has no
`return`), modelled as `Option (Nat × List String)` that is always `none`. -/
def insert_data {α : Type} (index_name : String) (data : List α)
    (bulk : List (BulkAction α) → BulkOutcome) :
    List String × Option (Nat × List String) :=
  let acts := data.map fun doc => BulkAction.mk index_name doc
  match bulk acts with
  | Except.ok (success, failed) =>
      (["Successfully inserted " ++ toString success ++ " documents"]
        ++ (if failed.length ≠ 0 then
              ["Failed to insert " ++ toString failed.length ++ " documents"]
            else []),
       none)
  | Except.error e =>
      (["Error during bulk insert: " ++ toString e], none)

/-- Splits a character list on the dot character; `splitDots l` is the list
of dot-free segments of `l` (used to state IPv4 syntactic validity). -/
def splitDots : List Char → List (List Char)
  | [] => [[]]
  | c :: cs =>
    if c = '.' then [] :: splitDots cs
    else
      match splitDots cs with
      | [] => [[c]]
      | gp :: gs => (c :: gp) :: gs

/-- Decimal value of a digit string (most significant first). -/
def digitsVal (p : List Char) : Nat :=
  p.foldl (fun acc c => acc * 10 + (c.toNat - 48)) 0

/-- A valid dotted-quad octet: non-empty, all decimal digits, value ≤ 255. -/
def validOctet (p : List Char) : Bool :=
  !p.isEmpty && p.all Char.isDigit && digitsVal p ≤ 255

/-- Syntactic IPv4 validity: exactly four dot-separated decimal octets, each
in `[0, 255]`. -/
def isValidIPv4 (s : String) : Bool :=
  (splitDots s.data).length = 4 && (splitDots s.data).all validOctet

/-- A document list and an injected bulk outcome used to exercise
`insert_data` on a concrete partial-failure run: ten documents, nine
accepted, one rejected. -/
def tenDocs : List Nat := [0, 1, 2, 3, 4, 5, 6, 7, 8, 9]

/-- Bulk helper outcome reporting nine accepted documents and one rejected
one, as in the spec's partial-failure scenario. -/
def bulkNine : List (BulkAction Nat) → BulkOutcome :=
  fun _ => Except.ok (9, ["document 3 malformed"])

/-- Random stream used in the determinism witness. -/
def g1c : Nat → Nat := fun k => k

/-- A second stream that agrees with `g1c` exactly on the positions a
one-record run reads. -/
def g2c : Nat → Nat := fun k => if k < 11 then k else 99

lemma choice_mem {α : Type} (g : Nat → Nat) (i : Nat) (xs : List α) (d : α)
    (h : xs ≠ []) : choice g i xs d ∈ xs := by
  have hlen : 0 < xs.length := List.length_pos.mpr h
  have hlt : g i % xs.length < xs.length := Nat.mod_lt _ hlen
  rw [choice, List.getD_eq_getElem xs d hlt]
  exact List.getElem_mem hlt

/-- C1: for every `count > 0`, `generate_sample_data` returns a sequence of
exactly `count` activity records. -/
theorem C1_generate_length (n : Int) (hn : 0 < n) (g : Nat → Nat) (now : Int) :
    ((generate_sample_data n g now).length : Int) = n := by
  simp only [generate_sample_data, List.length_map, List.length_range]
  omega

theorem C1_generate_length_witness :
    (0 : Int) < 3 ∧ ((generate_sample_data 3 (fun i => i) 0).length : Int) = 3 :=
  ⟨by decide, C1_generate_length 3 (by decide) (fun i => i) 0⟩

/-- C4: for every store state and index name, calling
`create_index_if_not_exists` twice in succession never errors (the model is
a total function) and never duplicates schema: the first call returns `true`
(created) or `false` (already present), the second call always returns
`false`, and the store after the second call equals the store after the
first. -/
theorem C4_create_index_idempotent (store : Store) (index_name : String) :
    ((create_index_if_not_exists store index_name).2.1 = true ∨
      (create_index_if_not_exists store index_name).2.1 = false) ∧
    (create_index_if_not_exists
      (create_index_if_not_exists store index_name).2.2 index_name).2.1 = false ∧
    (create_index_if_not_exists
      (create_index_if_not_exists store index_name).2.2 index_name).2.2 =
      (create_index_if_not_exists store index_name).2.2 := by
  by_cases h : indicesExists store index_name
  · simp [create_index_if_not_exists, h]
  · have h2 : indicesExists ((index_name, mapping) :: store) index_name = true := by
      simp [indicesExists]
    simp [create_index_if_not_exists, h, h2]

/-- C9: `insert_data` never propagates an exception: for every bulk outcome
it returns normally with no return value (`none`), and when the bulk call
raises, the exception is caught and turned into a printed error line. -/
theorem C9_insert_data_no_exception {α : Type} (index_name : String)
    (data : List α) (bulk : List (BulkAction α) → BulkOutcome) (e : String) :
    (insert_data index_name data bulk).2 = none ∧
    insert_data index_name data (fun _ => Except.error e) =
      (["Error during bulk insert: " ++ e], none) := by
  constructor
  · cases hb : bulk (data.map fun doc => BulkAction.mk index_name doc) with
    | ok v =>
      cases v with
      | mk s f => simp [insert_data, hb]
    | error e2 => simp [insert_data, hb]
  · simp [insert_data]
    rfl

/-- C3 counterexample: on a concrete partial-failure run (ten documents,
nine accepted, one rejected) `insert_data` returns `none` — no `BulkResult`
value reporting accepted and rejected documents is returned to the caller.
-/
theorem C3_counterexample :
    (insert_data "user_activity_logs" tenDocs bulkNine).2 = none := rfl

/-- C3 (amended): `insert_data` returns no value; it reports the bulk
helper's outcome only by printing.  When the injected bulk call returns a
`(success, failed)` pair for the batch, `insert_data` returns normally (it
does not abort), prints the accepted count, and prints the rejected count
exactly when there are rejected documents. -/
theorem C3_insert_data_reports {α : Type} (index_name : String)
    (data : List α) (bulk : List (BulkAction α) → BulkOutcome)
    (s : Nat) (f : List String)
    (hb : bulk (data.map fun doc => BulkAction.mk index_name doc) =
      Except.ok (s, f)) :
    insert_data index_name data bulk =
      (["Successfully inserted " ++ toString s ++ " documents"]
        ++ (if f.length ≠ 0 then
              ["Failed to insert " ++ toString f.length ++ " documents"]
            else []),
       none) := by
  simp [insert_data, hb]

theorem C3_insert_data_reports_witness :
    insert_data "user_activity_logs" tenDocs bulkNine =
      (["Successfully inserted 9 documents", "Failed to insert 1 documents"],
       none) := by
  have h := C3_insert_data_reports "user_activity_logs" tenDocs bulkNine 9
    ["document 3 malformed"] rfl
  rw [h]
  rfl

/-- C8 counterexample: `count = 0` violates the claimed input constraint
`count > 0`, yet `generate_sample_data` signals no `InvalidArgument` error:
it returns the empty list as an ordinary value. -/
theorem C8_counterexample :
    generate_sample_data 0 (fun i => i) 0 = [] := rfl

/-- C8 (amended): `generate_sample_data` performs no input validation and
never signals any error: for every count it returns normally with exactly
`max count 0` records, in particular the empty sequence for every
`count ≤ 0`; the population and the time window are fixed constants of the
function, not inputs, so their constraints cannot be violated. -/
theorem C8_no_validation (n : Int) (g : Nat → Nat) (now : Int) :
    (generate_sample_data n g now).length = n.toNat ∧
    (n ≤ 0 → generate_sample_data n g now = []) := by
  constructor
  · simp [generate_sample_data]
  · intro h
    have hz : n.toNat = 0 := by omega
    simp [generate_sample_data, hz]

theorem C8_no_validation_witness :
    generate_sample_data (-1) (fun i => i) 5 = [] :=
  (C8_no_validation (-1) (fun i => i) 5).2 (by decide)

/-- C2 counterexample: with `now = 0` and a stream making the day, hour and
minute draws maximal (7, 23, 59), the single generated record's timestamp is
`86340` seconds, i.e. `now + 23h59m`, which is later than `now`: the claimed
upper bound `timestamp ≤ now` fails. -/
theorem C2_counterexample :
    (generate_sample_data 1 (fun _ => 10079) 0).map Record.timestamp = [86340] ∧
    ¬ ((86340 : Int) ≤ 0) := by
  constructor
  · decide
  · decide

/-- C2 (amended): every generated record's timestamp lies in the window
`[now - 7 days, now + 23 h 59 min]`, i.e. between `now - 604800` and
`now + 86340` seconds: the claimed lower bound `now - 7 days` holds, but the
upper bound is not `now` — the day offset is drawn from `[0, 7]` with hour
and minute offsets added on top, so a timestamp can exceed `now` by up to
23 hours 59 minutes. -/
theorem C2_timestamp_bounds (n : Int) (g : Nat → Nat) (now : Int)
    (r : Record) (hr : r ∈ generate_sample_data n g now) :
    now - 604800 ≤ r.timestamp ∧ r.timestamp ≤ now + 86340 := by
  simp only [generate_sample_data, List.mem_map] at hr
  obtain ⟨i, hi, rfl⟩ := hr
  simp only [genRecord, randint]
  constructor
  · omega
  · omega

theorem C2_timestamp_bounds_witness :
    genRecord (fun k => k) 0 0 ∈ generate_sample_data 1 (fun k => k) 0 ∧
    ((0 : Int) - 604800 ≤ (genRecord (fun k => k) 0 0).timestamp ∧
      (genRecord (fun k => k) 0 0).timestamp ≤ 0 + 86340) := by
  have hm : genRecord (fun k => k) 0 0 ∈ generate_sample_data 1 (fun k => k) 0 := by
    simp [generate_sample_data]
  exact ⟨hm, C2_timestamp_bounds 1 (fun k => k) 0 _ hm⟩

/-- C5: every generated record draws `action`, `status` and `location` from
their fixed closed sets, and its `user_id`, `user_name` and `department` are
copied together from one single entity of the fixed population. -/
theorem C5_closed_sets (n : Int) (g : Nat → Nat) (now : Int)
    (r : Record) (hr : r ∈ generate_sample_data n g now) :
    r.action ∈ actions ∧ r.status ∈ statuses ∧ r.location ∈ locations ∧
    ∃ u ∈ users, r.user_id = u.id ∧ r.user_name = u.name ∧
      r.department = u.dept := by
  simp only [generate_sample_data, List.mem_map] at hr
  obtain ⟨i, hi, rfl⟩ := hr
  refine ⟨?_, ?_, ?_, ?_⟩
  · simpa only [genRecord] using
      choice_mem g (11 * i + 5) actions "" (by decide)
  · simpa only [genRecord] using
      choice_mem g (11 * i + 6) statuses "" (by decide)
  · simpa only [genRecord] using
      choice_mem g (11 * i + 1) locations ⟨0, 0⟩ (by decide)
  · exact ⟨choice g (11 * i) users ⟨"", "", ""⟩,
      choice_mem g (11 * i) users ⟨"", "", ""⟩ (by decide), rfl, rfl, rfl⟩

theorem C5_closed_sets_witness :
    genRecord (fun _ => 1) 0 0 ∈ generate_sample_data 1 (fun _ => 1) 0 ∧
    ((genRecord (fun _ => 1) 0 0).action ∈ actions ∧
      (genRecord (fun _ => 1) 0 0).status ∈ statuses ∧
      (genRecord (fun _ => 1) 0 0).location ∈ locations ∧
      ∃ u ∈ users, (genRecord (fun _ => 1) 0 0).user_id = u.id ∧
        (genRecord (fun _ => 1) 0 0).user_name = u.name ∧
        (genRecord (fun _ => 1) 0 0).department = u.dept) := by
  have hm : genRecord (fun _ => 1) 0 0 ∈ generate_sample_data 1 (fun _ => 1) 0 := by
    simp [generate_sample_data]
  exact ⟨hm, C5_closed_sets 1 (fun _ => 1) 0 _ hm⟩

/-- C10: every generated ip address has the form `192.168.a.b` with both `a`
and `b` integers in `[1, 255]` — in particular the last two octets are never
`0`, and the address lies in the `192.168.0.0/16` private range. -/
theorem C10_ip_octets (n : Int) (g : Nat → Nat) (now : Int)
    (r : Record) (hr : r ∈ generate_sample_data n g now) :
    ∃ a b : Nat, 1 ≤ a ∧ a ≤ 255 ∧ 1 ≤ b ∧ b ≤ 255 ∧
      r.ip_address = "192.168." ++ toString a ++ "." ++ toString b := by
  simp only [generate_sample_data, List.mem_map] at hr
  obtain ⟨i, hi, rfl⟩ := hr
  refine ⟨randint g (11 * i + 8) 1 255, randint g (11 * i + 9) 1 255,
    ?_, ?_, ?_, ?_, ?_⟩
  · simp only [randint]; omega
  · simp only [randint]; omega
  · simp only [randint]; omega
  · simp only [randint]; omega
  · simp only [genRecord]

theorem C10_ip_octets_witness :
    genRecord (fun _ => 2) 0 0 ∈ generate_sample_data 1 (fun _ => 2) 0 ∧
    ∃ a b : Nat, 1 ≤ a ∧ a ≤ 255 ∧ 1 ≤ b ∧ b ≤ 255 ∧
      (genRecord (fun _ => 2) 0 0).ip_address =
        "192.168." ++ toString a ++ "." ++ toString b := by
  have hm : genRecord (fun _ => 2) 0 0 ∈ generate_sample_data 1 (fun _ => 2) 0 := by
    simp [generate_sample_data]
  exact ⟨hm, C10_ip_octets 1 (fun _ => 2) 0 _ hm⟩

lemma splitDots_dot_cons (l : List Char) :
    splitDots ('.' :: l) = [] :: splitDots l := by
  simp [splitDots]

lemma splitDots_no_dot (l : List Char) (h : '.' ∉ l) : splitDots l = [l] := by
  induction l with
  | nil => rfl
  | cons c cs ih =>
    have hc : ¬ c = '.' := fun hce => h (by simp [hce])
    have h2 : '.' ∉ cs := fun hm => h (List.mem_cons_of_mem _ hm)
    simp only [splitDots, if_neg hc, ih h2]

lemma splitDots_append (l1 l2 : List Char) (h : '.' ∉ l1) (gp : List Char)
    (gs : List (List Char)) (h2 : splitDots l2 = gp :: gs) :
    splitDots (l1 ++ l2) = (l1 ++ gp) :: gs := by
  induction l1 with
  | nil => simpa using h2
  | cons c cs ih =>
    have hc : ¬ c = '.' := fun hce => h (by simp [hce])
    have h3 : '.' ∉ cs := fun hm => h (List.mem_cons_of_mem _ hm)
    have ih2 : splitDots (cs.append l2) = (cs ++ gp) :: gs := ih h3
    simp only [List.cons_append, splitDots, if_neg hc, ih2]

set_option maxRecDepth 40000 in
set_option maxHeartbeats 2000000 in
lemma octet_repr_ok : ∀ k : Nat, k < 256 →
    validOctet (Nat.repr k).data = true ∧ '.' ∉ (Nat.repr k).data := by
  decide

lemma ip_string_data (sa sb : String) :
    ("192.168." ++ sa ++ "." ++ sb).data =
      ['1', '9', '2'] ++ ('.' ::
        (['1', '6', '8'] ++ ('.' :: (sa.data ++ ('.' :: sb.data))))) := by
  have h1 : ("192.168." : String).data
      = ['1', '9', '2', '.', '1', '6', '8', '.'] := rfl
  have h2 : ("." : String).data = ['.'] := rfl
  simp [String.data_append, h1, h2]

lemma isValidIPv4_concrete (a b : Nat) (ha : a < 256) (hb : b < 256) :
    isValidIPv4 ("192.168." ++ toString a ++ "." ++ toString b) = true := by
  obtain ⟨hva, hda⟩ := octet_repr_ok a ha
  obtain ⟨hvb, hdb⟩ := octet_repr_ok b hb
  have hts : (toString a : String) = Nat.repr a := rfl
  have hts2 : (toString b : String) = Nat.repr b := rfl
  have s1 : splitDots ('.' :: (Nat.repr b).data)
      = [] :: [(Nat.repr b).data] := by
    rw [splitDots_dot_cons, splitDots_no_dot _ hdb]
  have s2 : splitDots ((Nat.repr a).data ++ ('.' :: (Nat.repr b).data))
      = [(Nat.repr a).data, (Nat.repr b).data] := by
    simpa using splitDots_append (Nat.repr a).data _ hda [] [(Nat.repr b).data] s1
  have s3 : splitDots ('.' :: ((Nat.repr a).data ++ ('.' :: (Nat.repr b).data)))
      = [] :: [(Nat.repr a).data, (Nat.repr b).data] := by
    rw [splitDots_dot_cons, s2]
  have s4 : splitDots ((['1', '6', '8'] : List Char)
        ++ ('.' :: ((Nat.repr a).data ++ ('.' :: (Nat.repr b).data))))
      = [['1', '6', '8'], (Nat.repr a).data, (Nat.repr b).data] := by
    simpa using splitDots_append ['1', '6', '8'] _ (by decide) []
      [(Nat.repr a).data, (Nat.repr b).data] s3
  have s5 : splitDots ('.' :: ((['1', '6', '8'] : List Char)
        ++ ('.' :: ((Nat.repr a).data ++ ('.' :: (Nat.repr b).data)))))
      = [] :: [['1', '6', '8'], (Nat.repr a).data, (Nat.repr b).data] := by
    rw [splitDots_dot_cons, s4]
  have s6 : splitDots ((['1', '9', '2'] : List Char)
        ++ ('.' :: ((['1', '6', '8'] : List Char)
          ++ ('.' :: ((Nat.repr a).data ++ ('.' :: (Nat.repr b).data))))))
      = [['1', '9', '2'], ['1', '6', '8'],
         (Nat.repr a).data, (Nat.repr b).data] := by
    simpa using splitDots_append ['1', '9', '2'] _ (by decide) []
      [['1', '6', '8'], (Nat.repr a).data, (Nat.repr b).data] s5
  simp only [isValidIPv4, hts, hts2, ip_string_data, s6]
  simp [hva, hvb, List.all_cons]
  decide

lemma round2_nonneg (x : ℚ) (hx : 0 ≤ x) : 0 ≤ round2 x := by
  have hf : (0 : Int) ≤ ⌊x * 100⌋ := Int.floor_nonneg.mpr (by positivity)
  simp only [round2]
  split_ifs
  · refine div_nonneg ?_ (by norm_num)
    exact_mod_cast hf
  · refine div_nonneg ?_ (by norm_num)
    have h4 : (0 : Int) ≤ ⌊x * 100⌋ + 1 := by omega
    exact_mod_cast h4
  · refine div_nonneg ?_ (by norm_num)
    exact_mod_cast hf
  · refine div_nonneg ?_ (by norm_num)
    have h4 : (0 : Int) ≤ ⌊x * 100⌋ + 1 := by omega
    exact_mod_cast h4

lemma uniform_resp_nonneg (g : Nat → Nat) (i : Nat) :
    0 ≤ uniform g i (1/10) 5 := by
  simp only [uniform, randomFrac]
  refine add_nonneg (by norm_num) (mul_nonneg (by norm_num) ?_)
  positivity

/-- C6: every generated record has a non-negative response_time, a positive
session_duration bounded by the configured maximum 3600 seconds, and a
syntactically valid IPv4 ip_address (four dot-separated decimal octets, each
in [0, 255]). -/
theorem C6_field_ranges (n : Int) (g : Nat → Nat) (now : Int)
    (r : Record) (hr : r ∈ generate_sample_data n g now) :
    0 ≤ r.response_time ∧ 0 < r.session_duration ∧
      r.session_duration ≤ 3600 ∧ isValidIPv4 r.ip_address = true := by
  simp only [generate_sample_data, List.mem_map] at hr
  obtain ⟨i, hi, rfl⟩ := hr
  refine ⟨?_, ?_, ?_, ?_⟩
  · simpa only [genRecord] using
      round2_nonneg _ (uniform_resp_nonneg g (11 * i + 7))
  · simp only [genRecord, randint]
    omega
  · simp only [genRecord, randint]
    omega
  · have ha : randint g (11 * i + 8) 1 255 < 256 := by
      simp only [randint]; omega
    have hb : randint g (11 * i + 9) 1 255 < 256 := by
      simp only [randint]; omega
    simpa only [genRecord] using isValidIPv4_concrete _ _ ha hb

theorem C6_field_ranges_witness :
    genRecord (fun _ => 3) 0 0 ∈ generate_sample_data 1 (fun _ => 3) 0 ∧
    (0 ≤ (genRecord (fun _ => 3) 0 0).response_time ∧
      0 < (genRecord (fun _ => 3) 0 0).session_duration ∧
      (genRecord (fun _ => 3) 0 0).session_duration ≤ 3600 ∧
      isValidIPv4 (genRecord (fun _ => 3) 0 0).ip_address = true) := by
  have hm : genRecord (fun _ => 3) 0 0 ∈ generate_sample_data 1 (fun _ => 3) 0 := by
    simp [generate_sample_data]
  exact ⟨hm, C6_field_ranges 1 (fun _ => 3) 0 _ hm⟩

lemma genRecord_congr (g1 g2 : Nat → Nat) (i0 : Nat) (now : Int)
    (h : ∀ j, j < 11 → g1 (i0 + j) = g2 (i0 + j)) :
    genRecord g1 i0 now = genRecord g2 i0 now := by
  have h0 : g1 i0 = g2 i0 := by simpa using h 0 (by omega)
  have h1 : g1 (i0 + 1) = g2 (i0 + 1) := h 1 (by omega)
  have h2 : g1 (i0 + 2) = g2 (i0 + 2) := h 2 (by omega)
  have h3 : g1 (i0 + 3) = g2 (i0 + 3) := h 3 (by omega)
  have h4 : g1 (i0 + 4) = g2 (i0 + 4) := h 4 (by omega)
  have h5 : g1 (i0 + 5) = g2 (i0 + 5) := h 5 (by omega)
  have h6 : g1 (i0 + 6) = g2 (i0 + 6) := h 6 (by omega)
  have h7 : g1 (i0 + 7) = g2 (i0 + 7) := h 7 (by omega)
  have h8 : g1 (i0 + 8) = g2 (i0 + 8) := h 8 (by omega)
  have h9 : g1 (i0 + 9) = g2 (i0 + 9) := h 9 (by omega)
  have h10 : g1 (i0 + 10) = g2 (i0 + 10) := h 10 (by omega)
  simp only [genRecord, choice, randint, uniform, randomFrac,
    h0, h1, h2, h3, h4, h5, h6, h7, h8, h9, h10]

/-- C7: the generator is deterministic with respect to its injected random
source: two runs whose random streams agree on every position the run reads
(11 draws per record) produce identical record sequences; in particular two
runs with the same seeded source and the same inputs coincide. -/
theorem C7_deterministic (n : Int) (g1 g2 : Nat → Nat) (now : Int)
    (h : ∀ k, k < 11 * n.toNat → g1 k = g2 k) :
    generate_sample_data n g1 now = generate_sample_data n g2 now := by
  simp only [generate_sample_data]
  apply List.map_congr_left
  intro i hi
  have hi2 : i < n.toNat := List.mem_range.mp hi
  apply genRecord_congr
  intro j hj
  exact h (11 * i + j) (by omega)

theorem C7_deterministic_witness :
    (∀ k, k < 11 * (1 : Int).toNat → g1c k = g2c k) ∧
    generate_sample_data 1 g1c 0 = generate_sample_data 1 g2c 0 :=
  ⟨by decide, C7_deterministic 1 g1c g2c 0 (by decide)⟩

end ElasticDemo
